import Mathlib

/-!
Shallow embedding of the Back_End movie ETL pipeline, focused on the
reconciliation / batch-upsert core:

* `src/src/database/db_manager.py` — `DatabaseManager.load_movie_data`,
  `DatabaseManager.load_movie_data_batch`, `DatabaseManager._track_change`,
  and the `Movie` / `MovieChange` ORM models (including the `tmdb_id`
  UNIQUE constraint and the `title` NOT NULL constraint enforced by the
  database at flush/commit time);
* `src/src/etl/yaml_processor.py` — the cross-file deduplication step of
  `YAMLProcessor.process_yaml_files`;
* `src/src/api/tmdb_client.py` — `TMDBClient._get_from_cache` and
  `TMDBClient._add_to_cache`;
* `src/src/movielens/movielens_loader.py` — the `extract_year` helper of
  `MovieLensLoader.load_data`.

Integer-valued record fields are `Option Int` (Python `None` is `none`);
Python truthiness on such a field (`None` and `0` are falsy) is made
explicit.  Columns that no verified property touches (dates, paths,
popularity and other pass-through floats/strings) are omitted from the
record and row structures; every field that is kept is copied by the
operations exactly where the source copies it.  Database errors
(IntegrityError on a NULL title or a duplicate `tmdb_id`) roll the
session back, leaving the store unchanged, exactly as the
`except ... session.rollback()` blocks do.
-/

namespace BackEnd

/-- Python truthiness of an optional integer: `None` and `0` are falsy. -/
def truthyInt : Option Int → Bool
  | none => false
  | some v => v != 0

/-- Python `a or b` on two optional integer fields: the left operand is
returned when truthy, otherwise the right operand is returned as-is. -/
def pyOrInt (a b : Option Int) : Option Int :=
  if truthyInt a then a else b

/-- An incoming movie record (the `movie_data` dict).  A missing key reads
as `none`, matching `dict.get`. -/
structure MovieData where
  tmdbId : Option Int := none
  tmdb_id : Option Int := none
  movieId : Option Int := none
  movielens_id : Option Int := none
  title : Option String := none
  overview : Option String := none
  genres : Option (List String) := none
  deriving Repr, DecidableEq

/-- TMDB-id selection of `DatabaseManager.load_movie_data` (line 244):
`movie_data.get(tmdbId) or movie_data.get(tmdb_id)`. -/
def singleSelectId (d : MovieData) : Option Int :=
  pyOrInt d.tmdbId d.tmdb_id

/-- TMDB-id selection of `DatabaseManager.load_movie_data_batch`
(lines 416 and 429): `movie_data.get(tmdb_id) or movie_data.get(tmdbId)`. -/
def batchSelectId (d : MovieData) : Option Int :=
  pyOrInt d.tmdb_id d.tmdbId

/-- A persisted row of the `movies` table.  `id` is the surrogate primary
key (MySQL AUTO_INCREMENT, 1-based); `tmdb_id` is declared
`nullable=False, unique=True` and `title` `nullable=False` in the ORM
model — `title` is still `Option` here because the Python object may hold
`None` until the database rejects it at flush time. -/
structure Movie where
  id : Nat
  tmdb_id : Int
  movielens_id : Option Int
  title : Option String
  overview : Option String
  deriving Repr, DecidableEq

/-- A row of the `movie_changes` table written by
`DatabaseManager._track_change`. -/
structure MovieChange where
  movie_id : Nat
  change_type : String
  deriving Repr, DecidableEq

/-- The relational store.  `genres` is the `genres` table (a genre id is
its index in the list); `movie_genres` holds `(movie_id, genre_id)`
association rows. -/
structure DB where
  movies : List Movie := []
  changes : List MovieChange := []
  genres : List String := []
  movie_genres : List (Nat × Nat) := []
  deriving Repr, DecidableEq

def emptyDB : DB := {}

/-- Model of `session.query(Genre).filter_by(name=...).first()`, creating the genre
row when absent, returning the updated table and the genre id. -/
def getOrCreateGenre (genres : List String) (name : String) : List String × Nat :=
  match genres.findIdx? (fun g => g = name) with
  | some i => (genres, i)
  | none => (genres ++ [name], genres.length)

/-- The genre loop shared by both loaders: for each genre name, skip the
`(no genres listed)` placeholder, get-or-create the genre row and add a
`movie_genres` association for `movieId`. -/
def addGenres (movieId : Nat) (names : List String)
    (genres : List String) (mgs : List (Nat × Nat)) :
    List String × List (Nat × Nat) :=
  match names with
  | [] => (genres, mgs)
  | name :: rest =>
    if name = "(no genres listed)" then addGenres movieId rest genres mgs
    else
      let gc := getOrCreateGenre genres name
      addGenres movieId rest gc.1 (mgs ++ [(movieId, gc.2)])

/-- Model of `DatabaseManager.load_movie_data` (single-record upsert).
On a record with no truthy TMDB id it raises `ValueError("TMDB ID is
required")`; otherwise it updates the existing row with that `tmdb_id`
(appending an `update` change record) or creates a new row (appending a
`create` change record), then replaces the genre associations when the
record carries a `genres` key.  A NOT NULL violation on `title` surfaces
at commit and rolls everything back. -/
def load_movie_data (db : DB) (d : MovieData) : Except String DB :=
  match singleSelectId d with
  | none => .error "TMDB ID is required"
  | some tid =>
    if tid = 0 then .error "TMDB ID is required"
    else
      match db.movies.find? (fun m => m.tmdb_id == tid) with
      | some m =>
        let m2 : Movie := { m with title := d.title, overview := d.overview }
        if d.title = none then .error "IntegrityError"
        else
          let movies2 := db.movies.map (fun x => if x.id = m.id then m2 else x)
          let gp :=
            match d.genres with
            | none => (db.genres, db.movie_genres)
            | some gs =>
              addGenres m.id gs db.genres
                (db.movie_genres.filter (fun p => p.1 ≠ m.id))
          .ok { movies := movies2,
                changes := db.changes ++ [⟨m.id, "update"⟩],
                genres := gp.1, movie_genres := gp.2 }
      | none =>
        if d.title = none then .error "IntegrityError"
        else
          let mid := db.movies.length + 1
          let m : Movie :=
            { id := mid, tmdb_id := tid,
              movielens_id := pyOrInt d.movielens_id d.movieId,
              title := d.title, overview := d.overview }
          let gp :=
            match d.genres with
            | none => (db.genres, db.movie_genres)
            | some gs => addGenres mid gs db.genres db.movie_genres
          .ok { movies := db.movies ++ [m],
                changes := db.changes ++ [⟨mid, "create"⟩],
                genres := gp.1, movie_genres := gp.2 }

/-- The bulk existence lookup of `load_movie_data_batch` (lines 416-421):
the set of `tmdb_id`s of stored movies matched by
`Movie.tmdb_id.in_(tmdb_ids)` where `tmdb_ids` collects
`batchSelectId` over the whole batch (a `None` entry matches no row). -/
def existingIdsForBatch (db : DB) (ds : List MovieData) : List Int :=
  let tmdb_ids := ds.map batchSelectId
  (db.movies.filter (fun m => decide (some m.tmdb_id ∈ tmdb_ids))).map (fun m => m.tmdb_id)

/-- The main loop of `load_movie_data_batch` (lines 427-468): walk the
batch, skipping records without a truthy TMDB id (logged warning) and
records whose id is already stored (logged skip), and build the
`movies_to_add` list; surrogate ids are assigned sequentially from
`nextId` as `bulk_save_objects` will insert them.  Returns
`(movies_to_add, skipped-existing tally, skipped-no-id tally)`. -/
def batchPhase1 (nextId : Nat) (existing : List Int) :
    List MovieData → List Movie × Nat × Nat
  | [] => ([], 0, 0)
  | d :: rest =>
    match batchSelectId d with
    | none =>
      let r := batchPhase1 nextId existing rest
      (r.1, r.2.1, r.2.2 + 1)
    | some tid =>
      if tid = 0 then
        let r := batchPhase1 nextId existing rest
        (r.1, r.2.1, r.2.2 + 1)
      else if tid ∈ existing then
        let r := batchPhase1 nextId existing rest
        (r.1, r.2.1 + 1, r.2.2)
      else
        let m : Movie :=
          { id := nextId, tmdb_id := tid,
            movielens_id := pyOrInt d.movielens_id d.movieId,
            title := d.title, overview := d.overview }
        let r := batchPhase1 (nextId + 1) existing rest
        (m :: r.1, r.2.1, r.2.2)

/-- Row-level integrity of the INSERTs issued by `bulk_save_objects`:
each inserted row must have a non-NULL `title` and a `tmdb_id` distinct
from every row already in the table and from every row inserted before it
in the same flush. -/
def insertOk (priorIds : List Int) : List Movie → Bool
  | [] => true
  | m :: rest =>
    m.title != none && decide (m.tmdb_id ∉ priorIds)
      && insertOk (priorIds ++ [m.tmdb_id]) rest

/-- One iteration of the genre pass of `load_movie_data_batch`
(lines 475-503): for a record with a truthy, not-previously-existing TMDB
id, find the (now inserted) movie row by `tmdb_id` and, when the record
carries a `genres` key, delete its genre associations and re-add them;
every other record is skipped by the `continue` guards. -/
def batchGenreStep (existing : List Int) (db : DB) (d : MovieData) : DB :=
  match batchSelectId d with
  | none => db
  | some tid =>
    if tid = 0 then db
    else if tid ∈ existing then db
    else
      match db.movies.find? (fun m => m.tmdb_id == tid) with
      | none => db
      | some movie =>
        match d.genres with
        | none => db
        | some gs =>
          let gp := addGenres movie.id gs db.genres
            (db.movie_genres.filter (fun p => p.1 ≠ movie.id))
          { db with genres := gp.1, movie_genres := gp.2 }

/-- The genre pass of `load_movie_data_batch`: the loop over the full
batch, one `batchGenreStep` per record. -/
def batchGenrePass (existing : List Int) (ds : List MovieData) (db : DB) : DB :=
  ds.foldl (batchGenreStep existing) db

/-- Observable outcome of one `load_movie_data_batch` call: the resulting
store, the number of rows persisted (`movies_to_add` actually committed),
the two skip tallies matching the two logged skip branches, and the
raised error when the batch rolled back. -/
structure BatchOutcome where
  db : DB
  created : Nat
  skippedExisting : Nat
  skippedNoId : Nat
  err : Option String
  deriving Repr, DecidableEq

/-- Model of `DatabaseManager.load_movie_data_batch` (lines 406-512).  Bulk-load
the existing ids, build `movies_to_add` (skipping no-id and
already-existing records), bulk-insert, run the genre pass, and commit.
Note there is no update branch: an already-existing record is skipped.
An IntegrityError (duplicate `tmdb_id` within the batch, or NULL `title`)
rolls the whole batch back and re-raises. -/
def load_movie_data_batch (db : DB) (ds : List MovieData) : BatchOutcome :=
  let existing := existingIdsForBatch db ds
  let p := batchPhase1 (db.movies.length + 1) existing ds
  let toAdd := p.1
  if insertOk (db.movies.map (fun m => m.tmdb_id)) toAdd then
    let db2 := { db with movies := db.movies ++ toAdd }
    { db := batchGenrePass existing ds db2,
      created := toAdd.length,
      skippedExisting := p.2.1, skippedNoId := p.2.2, err := none }
  else
    { db := db, created := 0,
      skippedExisting := p.2.1, skippedNoId := p.2.2,
      err := some "IntegrityError" }

/-- State reached by a single-record upsert, the rollback keeping the
store unchanged on error. -/
def runSingle (db : DB) (d : MovieData) : DB :=
  match load_movie_data db d with
  | .ok db2 => db2
  | .error _ => db

/-- One upsert operation against the store. -/
inductive Op where
  | single (d : MovieData)
  | batch (ds : List MovieData)
  deriving Repr

/-- Apply one upsert operation, keeping the committed state. -/
def applyOp (db : DB) : Op → DB
  | .single d => runSingle db d
  | .batch ds => (load_movie_data_batch db ds).db

/-- Apply a sequence of upsert operations. -/
def applyOps (db : DB) (ops : List Op) : DB :=
  ops.foldl applyOp db

/-- The deduplication step of `YAMLProcessor.process_yaml_files`
(lines 104-113): insert each record into a dict keyed by its `tmdb_id`
field only when that key is truthy and not yet present; `unique` carries
the ids already present.  Python dicts preserve insertion order, so the
resulting list keeps the first record seen for each id, in first-seen
order. -/
def dedupAux (unique : List Int) : List MovieData → List MovieData
  | [] => []
  | d :: rest =>
    match d.tmdb_id with
    | none => dedupAux unique rest
    | some tid =>
      if tid = 0 then dedupAux unique rest
      else if tid ∈ unique then dedupAux unique rest
      else d :: dedupAux (unique ++ [tid]) rest

/-- Result of `list(unique_movies.values())` after the dedup loop. -/
def deduplicateMovies (ds : List MovieData) : List MovieData :=
  dedupAux [] ds

/-! ### The TMDB client response cache (`src/src/api/tmdb_client.py`)

`request_cache` maps a cache key to a `(timestamp, data)` pair; time is
modelled by the rationals.  The cache is an association list with at most
one live entry per key — a `put` replaces the previous entry, as a Python
dict assignment does. -/

/-- Value of `TMDBClient.cache_ttl`: 3600 seconds. -/
def cache_ttl : ℚ := 3600

/-- Model of `TMDBClient._add_to_cache`: `self.request_cache[cache_key] = (time.time(), data)`,
with `now` standing for `time.time()`. -/
def addToCache {V : Type} (cache : List (String × ℚ × V)) (now : ℚ)
    (key : String) (data : V) : List (String × ℚ × V) :=
  (key, now, data) :: cache.filter (fun e => e.1 ≠ key)

/-- Model of `TMDBClient._get_from_cache`: return the stored data when the entry
exists and `now - cache_time < cache_ttl`, else `None`. -/
def getFromCache {V : Type} (cache : List (String × ℚ × V)) (now : ℚ)
    (key : String) : Option V :=
  match cache.find? (fun e => e.1 == key) with
  | some e => if now - e.2.1 < cache_ttl then some e.2.2 else none
  | none => none

/-! ### Year extraction (`src/src/movielens/movielens_loader.py`)

`extract_year` inside `MovieLensLoader.load_data` (lines 40-48): when the
title contains both `(` and `)`, take the substring strictly between the
LAST `(` and the LAST `)` (`str.rfind`) and apply Python `int`, returning
`None` on `ValueError`; otherwise return `None`. -/

/-- Python `str.rfind` restricted to a single character: the highest index
holding `c`, if any. -/
def rfindChar (cs : List Char) (c : Char) : Option Nat :=
  match cs.reverse.findIdx? (fun x => x == c) with
  | some j => some (cs.length - 1 - j)
  | none => none

/-- Value of a non-empty all-digit character run. -/
def pyParseDigits (cs : List Char) : Option Nat :=
  if cs ≠ [] ∧ cs.all Char.isDigit then
    some (cs.foldl (fun a c => a * 10 + (c.toNat - 48)) 0)
  else none

/-- Strip leading and trailing whitespace from a character list. -/
def stripChars (cs : List Char) : List Char :=
  ((cs.dropWhile Char.isWhitespace).reverse.dropWhile Char.isWhitespace).reverse

/-- Python `int(s)` on a string, up to the conventions the loader can
meet: surrounding whitespace is stripped, an optional single sign is
allowed, and the remainder must be a non-empty digit run (`ValueError`,
i.e. `none`, otherwise).  Digit-group underscores are not modelled; no
title parsed by the pipeline contains them. -/
def pyInt (s : String) : Option Int :=
  match stripChars s.toList with
  | '-' :: rest => (pyParseDigits rest).map (fun n => -(n : Int))
  | '+' :: rest => (pyParseDigits rest).map (fun n => (n : Int))
  | cs => (pyParseDigits cs).map (fun n => (n : Int))

/-- Model of `extract_year` inside `MovieLensLoader.load_data`. -/
def extract_year (title : String) : Option Int :=
  let cs := title.toList
  if '(' ∈ cs ∧ ')' ∈ cs then
    match rfindChar cs '(', rfindChar cs ')' with
    | some i, some j => pyInt (String.mk ((cs.drop (i + 1)).take (j - (i + 1))))
    | _, _ => none
  else none

/-! ### Store invariants -/

/-- Surrogate primary keys are the AUTO_INCREMENT sequence 1, 2, ... in
insertion order. -/
def IdsSeq (db : DB) : Prop :=
  db.movies.map (fun m => m.id) = List.range' 1 db.movies.length

/-- The UNIQUE constraint on `movies.tmdb_id`. -/
def UniqueTmdb (db : DB) : Prop :=
  (db.movies.map (fun m => m.tmdb_id)).Nodup

/-- Every stored row has a truthy (hence in particular non-NULL)
TMDB id: rows are only ever created through a `not tmdb_id` guard. -/
def NonzeroTmdb (db : DB) : Prop :=
  ∀ m ∈ db.movies, m.tmdb_id ≠ 0

/-- Well-formedness of the store, established by `create_tables` on the
empty store and preserved by both upsert operations. -/
def WF (db : DB) : Prop :=
  IdsSeq db ∧ UniqueTmdb db ∧ NonzeroTmdb db

instance (db : DB) : Decidable (NonzeroTmdb db) := by
  unfold NonzeroTmdb
  infer_instance

instance (db : DB) : Decidable (UniqueTmdb db) := by
  unfold UniqueTmdb
  infer_instance

instance : DecidablePred WF := fun db => by
  unfold WF IdsSeq UniqueTmdb NonzeroTmdb
  infer_instance

/-! ### Concrete batches for the skip-and-log scenario -/

/-- A batch of 100 records in which record #57 (index 56) is missing the
required `title` field but carries a fresh TMDB id, while all other
records are well-formed and new. -/
def batchMissingTitle100 : List MovieData :=
  (List.range 100).map fun i =>
    if i = 56 then { tmdb_id := some 57 }
    else { tmdb_id := some ((i : Int) + 1), title := some "T" }

/-- A batch of 100 records in which record #57 (index 56) is missing the
TMDB id entirely, while all other records are well-formed and new. -/
def batchMissingId100 : List MovieData :=
  (List.range 100).map fun i =>
    if i = 56 then { title := some "X" }
    else { tmdb_id := some ((i : Int) + 1), title := some "T" }

/-! ## Verified properties -/

/-- C8: an entry written to the request cache at time `T` is a hit when
read at `T + cache_ttl - ε` and a miss when read at `T + cache_ttl + ε`,
for every positive `ε` (the read uses the strict comparison
`time.time() - cache_time < self.cache_ttl`). -/
theorem cache_ttl_boundary {V : Type} (cache : List (String × ℚ × V))
    (key : String) (v : V) (T ε : ℚ) (hε : 0 < ε) :
    getFromCache (addToCache cache T key v) (T + cache_ttl - ε) key = some v ∧
    getFromCache (addToCache cache T key v) (T + cache_ttl + ε) key = none := by
  have hfind : ∀ t : ℚ, getFromCache (addToCache cache T key v) t key =
      if t - T < cache_ttl then some v else none := by
    intro t
    unfold getFromCache addToCache
    rw [List.find?_cons_of_pos _ (by simp)]
  constructor
  · rw [hfind, if_pos (by linarith)]
  · rw [hfind, if_neg (by push_neg; linarith)]

/-- Witness for `cache_ttl_boundary` at a concrete cache, key and time. -/
theorem cache_ttl_boundary_witness :
    getFromCache (addToCache ([] : List (String × ℚ × Nat)) 0 "k" 5)
        (0 + cache_ttl - 1) "k" = some 5 ∧
    getFromCache (addToCache ([] : List (String × ℚ × Nat)) 0 "k" 5)
        (0 + cache_ttl + 1) "k" = none :=
  cache_ttl_boundary [] "k" 5 0 1 (by norm_num)

/-- C9 counterexample: `extract_year` parses whatever stands between the
LAST opening and LAST closing parenthesis, so a title with no well-formed
trailing `(YYYY)` can still yield a non-null year, contradicting the
claim that every such title yields a null year: a leading `(2010)` is
extracted even though nothing trails, and a two-digit `(99)` is extracted
even though it is not a four-digit year. -/
theorem extract_year_nontrailing_counterexample :
    extract_year "(2010) Inception" = some 2010 ∧
    extract_year "(2010) Inception" ≠ none ∧
    extract_year "Foo (99)" = some 99 := by
  refine ⟨by decide, by decide, by decide⟩

/-- C9 (amended): the two concrete scenarios hold — `"Inception (2010)"`
yields 2010 and `"Untitled Project"` yields a null year — and any title
lacking an opening or a closing parenthesis yields a null year;
`extract_year` is a total function, so no input raises.  (The claim fails
only in requiring the parenthesized year to be trailing and four digits
wide: the code parses between the last `(` and the last `)` wherever they
sit.) -/
theorem extract_year_behavior (t : String) :
    extract_year "Inception (2010)" = some 2010 ∧
    extract_year "Untitled Project" = none ∧
    (¬ ('(' ∈ t.toList) ∨ ¬ (')' ∈ t.toList) →
      extract_year t = none) := by
  refine ⟨by decide, by decide, fun h => ?_⟩
  unfold extract_year
  rw [if_neg (by tauto)]

/-- Witness for `extract_year_behavior` on a parenthesis-free title. -/
theorem extract_year_behavior_witness :
    extract_year "No Year Here" = none :=
  (extract_year_behavior "No Year Here").2.2 (by decide)

/-- C5 counterexample: on a record carrying `tmdbId = 1` and
`tmdb_id = 2`, the batch upsert keys the created row by the legacy field
value 2, not the catalog field value 1 — while the single-record upsert
uses 1 — so the batch operation does not prefer the catalog field name. -/
theorem batch_id_precedence_counterexample :
    (load_movie_data_batch emptyDB
        [{ tmdbId := some 1, tmdb_id := some 2, title := some "T" }]).db.movies
      = [{ id := 1, tmdb_id := 2, movielens_id := none,
           title := some "T", overview := none }] ∧
    (load_movie_data emptyDB
        { tmdbId := some 1, tmdb_id := some 2, title := some "T" })
      = .ok { movies := [{ id := 1, tmdb_id := 1, movielens_id := none,
                           title := some "T", overview := none }],
              changes := [{ movie_id := 1, change_type := "create" }] } := by
  refine ⟨by decide, by rfl⟩

/-- C5 (amended): when both id fields are populated, the single-record
upsert computes the external id from the catalog field `tmdbId`
(first-match-wins), but the batch upsert computes it from the legacy
field `tmdb_id` (also first-match-wins, with the opposite precedence) —
the two operations disagree rather than both preferring the catalog
field. -/
theorem id_selection_precedence (d : MovieData) (a b : Int)
    (ha : d.tmdbId = some a) (ha0 : a ≠ 0)
    (hb : d.tmdb_id = some b) (hb0 : b ≠ 0) :
    singleSelectId d = some a ∧ batchSelectId d = some b := by
  unfold singleSelectId batchSelectId pyOrInt truthyInt
  rw [ha, hb]
  simp [ha0, hb0]

/-- Witness for `id_selection_precedence` at a concrete record. -/
theorem id_selection_precedence_witness :
    singleSelectId { tmdbId := some 1, tmdb_id := some 2 } = some 1 ∧
    batchSelectId { tmdbId := some 1, tmdb_id := some 2 } = some 2 :=
  id_selection_precedence { tmdbId := some 1, tmdb_id := some 2 }
    1 2 rfl (by decide) rfl (by decide)

theorem dedupAux_cons_none (unique : List Int) (d : MovieData)
    (rest : List MovieData) (h : d.tmdb_id = none) :
    dedupAux unique (d :: rest) = dedupAux unique rest := by
  conv_lhs => unfold dedupAux
  rw [h]

theorem dedupAux_cons_zero (unique : List Int) (d : MovieData)
    (rest : List MovieData) (h : d.tmdb_id = some 0) :
    dedupAux unique (d :: rest) = dedupAux unique rest := by
  conv_lhs => unfold dedupAux
  rw [h]
  simp

theorem dedupAux_cons_seen (unique : List Int) (d : MovieData)
    (rest : List MovieData) {v : Int}
    (h : d.tmdb_id = some v) (h0 : v ≠ 0) (hm : v ∈ unique) :
    dedupAux unique (d :: rest) = dedupAux unique rest := by
  conv_lhs => unfold dedupAux
  rw [h]
  simp [h0, hm]

theorem dedupAux_cons_new (unique : List Int) (d : MovieData)
    (rest : List MovieData) {v : Int}
    (h : d.tmdb_id = some v) (h0 : v ≠ 0) (hm : v ∉ unique) :
    dedupAux unique (d :: rest) = d :: dedupAux (unique ++ [v]) rest := by
  conv_lhs => unfold dedupAux
  rw [h]
  simp [h0, hm]

/-- A later record whose (truthy) `tmdb_id` was already seen — in the
accumulated key set or on an earlier record — is dropped by the yaml
dedup loop. -/
theorem dedupAux_drop_dup (tid : Int) (h0 : tid ≠ 0) (c : MovieData)
    (hc : c.tmdb_id = some tid) :
    ∀ (xs ys : List MovieData) (unique : List Int),
      (tid ∈ unique ∨ ∃ x ∈ xs, x.tmdb_id = some tid) →
      dedupAux unique (xs ++ c :: ys) = dedupAux unique (xs ++ ys) := by
  intro xs
  induction xs with
  | nil =>
    intro ys unique h
    have htid : tid ∈ unique := by
      rcases h with h | ⟨x, hx, -⟩
      · exact h
      · cases hx
    simp only [List.nil_append]
    rw [dedupAux_cons_seen unique c ys hc h0 htid]
  | cons x xs ih =>
    intro ys unique h
    simp only [List.cons_append]
    cases hx : x.tmdb_id with
    | none =>
      have hmem : tid ∈ unique ∨ ∃ y ∈ xs, y.tmdb_id = some tid := by
        rcases h with h | ⟨y, hy, hyt⟩
        · exact Or.inl h
        · rcases List.mem_cons.mp hy with rfl | hy2
          · rw [hx] at hyt; cases hyt
          · exact Or.inr ⟨y, hy2, hyt⟩
      rw [dedupAux_cons_none unique x _ hx, dedupAux_cons_none unique x _ hx]
      exact ih ys unique hmem
    | some v =>
      by_cases hv0 : v = 0
      · have hmem : tid ∈ unique ∨ ∃ y ∈ xs, y.tmdb_id = some tid := by
          rcases h with h | ⟨y, hy, hyt⟩
          · exact Or.inl h
          · rcases List.mem_cons.mp hy with rfl | hy2
            · rw [hx] at hyt
              injection hyt with hyt
              exact absurd (hv0 ▸ hyt.symm) h0
            · exact Or.inr ⟨y, hy2, hyt⟩
        rw [dedupAux_cons_zero unique x _ (hv0 ▸ hx),
            dedupAux_cons_zero unique x _ (hv0 ▸ hx)]
        exact ih ys unique hmem
      · by_cases hvu : v ∈ unique
        · have hmem : tid ∈ unique ∨ ∃ y ∈ xs, y.tmdb_id = some tid := by
            rcases h with h | ⟨y, hy, hyt⟩
            · exact Or.inl h
            · rcases List.mem_cons.mp hy with rfl | hy2
              · rw [hx] at hyt
                injection hyt with hyt
                exact Or.inl (hyt ▸ hvu)
              · exact Or.inr ⟨y, hy2, hyt⟩
          rw [dedupAux_cons_seen unique x _ hx hv0 hvu,
              dedupAux_cons_seen unique x _ hx hv0 hvu]
          exact ih ys unique hmem
        · have hmem : tid ∈ unique ++ [v] ∨ ∃ y ∈ xs, y.tmdb_id = some tid := by
            rcases h with h | ⟨y, hy, hyt⟩
            · exact Or.inl (List.mem_append.mpr (Or.inl h))
            · rcases List.mem_cons.mp hy with rfl | hy2
              · rw [hx] at hyt
                injection hyt with hyt
                exact Or.inl (List.mem_append.mpr (Or.inr (by simp [hyt])))
              · exact Or.inr ⟨y, hy2, hyt⟩
          rw [dedupAux_cons_new unique x _ hx hv0 hvu,
              dedupAux_cons_new unique x _ hx hv0 hvu]
          rw [ih ys (unique ++ [v]) hmem]

/-- C2 (amended): within one collection of candidates, if two candidates
share the same truthy `tmdb_id`, the EARLIER one in iteration order wins:
the yaml dedup keeps the first record seen for each id and discards the
later duplicate entirely, so the single created row carries the earlier
field values of the earlier candidate (first-write-wins, not last-write-wins; feeding
the raw duplicate batch directly to the batch loader instead rolls the
whole batch back on the duplicate-key insert). -/
theorem dedup_drops_later_duplicate (pre mid post : List MovieData) (a c : MovieData)
    (tid : Int) (h0 : tid ≠ 0) (ha : a.tmdb_id = some tid) (hc : c.tmdb_id = some tid) :
    deduplicateMovies (pre ++ (a :: mid) ++ (c :: post))
      = deduplicateMovies (pre ++ (a :: mid) ++ post) := by
  unfold deduplicateMovies
  rw [List.append_assoc, List.append_assoc]
  rw [← List.append_assoc pre (a :: mid) (c :: post),
      ← List.append_assoc pre (a :: mid) post]
  apply dedupAux_drop_dup tid h0 c hc
  right
  exact ⟨a, List.mem_append.mpr (Or.inr (List.mem_cons_self a mid)), ha⟩

/-- Witness for `dedup_drops_later_duplicate` at the concrete 3-candidate
scenario batch. -/
theorem dedup_drops_later_duplicate_witness :
    deduplicateMovies
        ([] ++ (({ tmdb_id := some 42, title := some "A" } : MovieData)
            :: [{ tmdb_id := some 7, title := some "B" }])
          ++ ({ tmdb_id := some 42, title := some "C" } : MovieData) :: [])
      = deduplicateMovies
          ([] ++ (({ tmdb_id := some 42, title := some "A" } : MovieData)
              :: [{ tmdb_id := some 7, title := some "B" }])
            ++ []) :=
  dedup_drops_later_duplicate []
    [{ tmdb_id := some 7, title := some "B" }] []
    { tmdb_id := some 42, title := some "A" }
    { tmdb_id := some 42, title := some "C" }
    42 (by decide) rfl rfl

/-- C2 counterexample: for the batch `[A, B, C]` with `A` and `C` sharing
TMDB id 42 (`A` before `C`), the yaml deduplication keeps the FIRST
candidate `A` and discards `C`, so the one created row for id 42 carries
the title of `A`, not of `C` — first-write-wins, not last-write-wins.
Feeding the raw batch to `load_movie_data_batch` without deduplication
does not produce a last-write-wins row either: both duplicates are
appended to `movies_to_add`, the second INSERT violates the UNIQUE
constraint and the whole batch rolls back with zero rows. -/
theorem dedup_first_wins_counterexample :
    deduplicateMovies
        [{ tmdb_id := some 42, title := some "A" },
         { tmdb_id := some 7, title := some "B" },
         { tmdb_id := some 42, title := some "C" }]
      = [{ tmdb_id := some 42, title := some "A" },
         { tmdb_id := some 7, title := some "B" }] ∧
    (load_movie_data_batch emptyDB
        (deduplicateMovies
          [{ tmdb_id := some 42, title := some "A" },
           { tmdb_id := some 7, title := some "B" },
           { tmdb_id := some 42, title := some "C" }])).db.movies.map
        (fun m => (m.tmdb_id, m.title))
      = [(42, some "A"), (7, some "B")] ∧
    (load_movie_data_batch emptyDB
        [{ tmdb_id := some 42, title := some "A" },
         { tmdb_id := some 7, title := some "B" },
         { tmdb_id := some 42, title := some "C" }]).err
      = some "IntegrityError" := by
  refine ⟨by decide, by decide, by decide⟩

/-- C4 counterexample: the batch upsert creates a movie row but appends
no ChangeRecord at all — `load_movie_data_batch` never calls
`_track_change`. -/
theorem batch_no_change_records_counterexample :
    (load_movie_data_batch emptyDB
        [{ tmdb_id := some 5, title := some "T" }]).db.movies.length = 1 ∧
    (load_movie_data_batch emptyDB
        [{ tmdb_id := some 5, title := some "T" }]).db.changes = [] := by
  refine ⟨by decide, by decide⟩

/-- C6 counterexample: the single-record upsert does NOT log-and-continue
on a candidate with no external id field populated — it raises
`ValueError("TMDB ID is required")` (the exception is logged and
re-raised), so not every upsert operation handles the rejection without
raising. -/
theorem single_no_id_raises_counterexample :
    load_movie_data emptyDB { title := some "T" }
      = .error "TMDB ID is required" := by
  rfl

set_option maxRecDepth 4000 in
/-- C7 counterexample: a batch of 100 records in which record #57 is
missing the required title completes with a full-batch rollback — the
NULL title violates the NOT NULL constraint at flush, the exception
handler rolls the session back and re-raises — not with 99 successes and
1 logged skip. -/
theorem missing_title_rolls_back_batch :
    batchMissingTitle100.length = 100 ∧
    (load_movie_data_batch emptyDB batchMissingTitle100).err
      = some "IntegrityError" ∧
    (load_movie_data_batch emptyDB batchMissingTitle100).db = emptyDB ∧
    (load_movie_data_batch emptyDB batchMissingTitle100).created = 0 := by
  refine ⟨by decide, by decide, by decide, by decide⟩

set_option maxRecDepth 4000 in
/-- C7 (amended): the skip-and-log policy applies only to a record
missing its TMDB id: a batch of 100 where record #57 lacks the id
completes with 99 rows persisted and 1 logged skip; a record missing the
required title instead causes the entire batch to roll back with an
error and zero rows persisted. -/
theorem batch_partial_failure_policy :
    (load_movie_data_batch emptyDB batchMissingId100).created = 99 ∧
    (load_movie_data_batch emptyDB batchMissingId100).skippedNoId = 1 ∧
    (load_movie_data_batch emptyDB batchMissingId100).err = none ∧
    (load_movie_data_batch emptyDB batchMissingId100).db.movies.length = 99 ∧
    (load_movie_data_batch emptyDB batchMissingTitle100).err
      = some "IntegrityError" ∧
    (load_movie_data_batch emptyDB batchMissingTitle100).db.movies.length = 0 := by
  refine ⟨by decide, by decide, by decide, by decide, by decide, by decide⟩

/-! ### Helper lemmas about the batch machinery -/

theorem batchPhase1_cons_none (nextId : Nat) (existing : List Int)
    (d : MovieData) (rest : List MovieData) (h : batchSelectId d = none) :
    batchPhase1 nextId existing (d :: rest)
      = ((batchPhase1 nextId existing rest).1,
         (batchPhase1 nextId existing rest).2.1,
         (batchPhase1 nextId existing rest).2.2 + 1) := by
  conv_lhs => unfold batchPhase1
  rw [h]

theorem batchPhase1_cons_zero (nextId : Nat) (existing : List Int)
    (d : MovieData) (rest : List MovieData) (h : batchSelectId d = some 0) :
    batchPhase1 nextId existing (d :: rest)
      = ((batchPhase1 nextId existing rest).1,
         (batchPhase1 nextId existing rest).2.1,
         (batchPhase1 nextId existing rest).2.2 + 1) := by
  conv_lhs => unfold batchPhase1
  rw [h]
  simp

theorem batchPhase1_cons_existing (nextId : Nat) (existing : List Int)
    (d : MovieData) (rest : List MovieData) {tid : Int}
    (h : batchSelectId d = some tid) (h0 : tid ≠ 0) (hex : tid ∈ existing) :
    batchPhase1 nextId existing (d :: rest)
      = ((batchPhase1 nextId existing rest).1,
         (batchPhase1 nextId existing rest).2.1 + 1,
         (batchPhase1 nextId existing rest).2.2) := by
  conv_lhs => unfold batchPhase1
  rw [h]
  simp [h0, hex]

theorem batchPhase1_cons_new (nextId : Nat) (existing : List Int)
    (d : MovieData) (rest : List MovieData) {tid : Int}
    (h : batchSelectId d = some tid) (h0 : tid ≠ 0) (hex : tid ∉ existing) :
    batchPhase1 nextId existing (d :: rest)
      = (({ id := nextId, tmdb_id := tid,
            movielens_id := pyOrInt d.movielens_id d.movieId,
            title := d.title, overview := d.overview } : Movie)
           :: (batchPhase1 (nextId + 1) existing rest).1,
         (batchPhase1 (nextId + 1) existing rest).2.1,
         (batchPhase1 (nextId + 1) existing rest).2.2) := by
  conv_lhs => unfold batchPhase1
  rw [h]
  simp [h0, hex]

theorem batchGenreStep_movies (existing : List Int) (db : DB) (d : MovieData) :
    (batchGenreStep existing db d).movies = db.movies := by
  unfold batchGenreStep
  repeat' split
  all_goals rfl

theorem batchGenreStep_changes (existing : List Int) (db : DB) (d : MovieData) :
    (batchGenreStep existing db d).changes = db.changes := by
  unfold batchGenreStep
  repeat' split
  all_goals rfl

theorem batchGenrePass_movies (existing : List Int) (ds : List MovieData) :
    ∀ db : DB, (batchGenrePass existing ds db).movies = db.movies := by
  induction ds with
  | nil => intro db; rfl
  | cons d rest ih =>
    intro db
    unfold batchGenrePass at *
    simp only [List.foldl_cons]
    rw [ih (batchGenreStep existing db d), batchGenreStep_movies]

theorem batchGenrePass_changes (existing : List Int) (ds : List MovieData) :
    ∀ db : DB, (batchGenrePass existing ds db).changes = db.changes := by
  induction ds with
  | nil => intro db; rfl
  | cons d rest ih =>
    intro db
    unfold batchGenrePass at *
    simp only [List.foldl_cons]
    rw [ih (batchGenreStep existing db d), batchGenreStep_changes]

theorem batchGenreStep_skip (existing : List Int) (db : DB) (d : MovieData)
    (hd : truthyInt (batchSelectId d) = false) :
    batchGenreStep existing db d = db := by
  unfold batchGenreStep
  cases hsel : batchSelectId d with
  | none => rfl
  | some tid =>
    have h0 : tid = 0 := by
      rw [hsel] at hd
      unfold truthyInt at hd
      simpa using hd
    simp [h0]

theorem batchGenrePass_no_new (existing : List Int) (ds : List MovieData)
    (h : ∀ d ∈ ds, ∀ t, batchSelectId d = some t → t ≠ 0 → t ∈ existing) :
    ∀ db, batchGenrePass existing ds db = db := by
  induction ds with
  | nil => intro db; rfl
  | cons d rest ih =>
    intro db
    have hstep : batchGenreStep existing db d = db := by
      unfold batchGenreStep
      cases hsel : batchSelectId d with
      | none => rfl
      | some tid =>
        by_cases h0 : tid = 0
        · simp [h0]
        · have hex := h d (List.mem_cons_self d rest) tid hsel h0
          simp [h0, hex]
    unfold batchGenrePass at *
    simp only [List.foldl_cons, hstep]
    exact ih (fun x hx => h x (List.mem_cons_of_mem _ hx)) db

theorem insertOk_nodup : ∀ (toAdd : List Movie) (prior : List Int),
    insertOk prior toAdd = true → prior.Nodup →
    (prior ++ toAdd.map (fun m => m.tmdb_id)).Nodup := by
  intro toAdd
  induction toAdd with
  | nil =>
    intro prior _ hnd
    simpa using hnd
  | cons m rest ih =>
    intro prior h hnd
    simp only [insertOk, Bool.and_eq_true, decide_eq_true_eq] at h
    obtain ⟨⟨-, hmem⟩, hrest⟩ := h
    have hnd2 : (prior ++ [m.tmdb_id]).Nodup := by
      simp [List.nodup_append, hnd, hmem]
    have hres := ih (prior ++ [m.tmdb_id]) hrest hnd2
    simpa [List.append_assoc] using hres

theorem batchPhase1_ids (existing : List Int) :
    ∀ (ds : List MovieData) (nextId : Nat),
      (batchPhase1 nextId existing ds).1.map (fun m => m.id)
        = List.range' nextId (batchPhase1 nextId existing ds).1.length := by
  intro ds
  induction ds with
  | nil => intro nextId; rfl
  | cons d rest ih =>
    intro nextId
    unfold batchPhase1
    cases hsel : batchSelectId d with
    | none => simpa using ih nextId
    | some tid =>
      by_cases h0 : tid = 0
      · simpa [h0] using ih nextId
      · by_cases hex : tid ∈ existing
        · simpa [h0, hex] using ih nextId
        · simp only [h0, hex, if_false, if_neg]
          simp [List.range'_succ, ih (nextId + 1)]

theorem batchPhase1_nonzero (existing : List Int) :
    ∀ (ds : List MovieData) (nextId : Nat),
      ∀ m ∈ (batchPhase1 nextId existing ds).1, m.tmdb_id ≠ 0 := by
  intro ds
  induction ds with
  | nil => intro nextId m hm; simp [batchPhase1] at hm
  | cons d rest ih =>
    intro nextId m hm
    unfold batchPhase1 at hm
    cases hsel : batchSelectId d with
    | none =>
      rw [hsel] at hm
      exact ih nextId m hm
    | some tid =>
      rw [hsel] at hm
      by_cases h0 : tid = 0
      · simp only [h0, if_true] at hm
        exact ih nextId m hm
      · by_cases hex : tid ∈ existing
        · simp only [h0, hex, if_false, if_true] at hm
          exact ih nextId m hm
        · simp only [h0, hex, if_false] at hm
          rcases List.mem_cons.mp hm with h | h
          · rw [h]; exact h0
          · exact ih (nextId + 1) m h

theorem batchPhase1_coverage (existing : List Int) :
    ∀ (ds : List MovieData) (nextId : Nat) (d : MovieData), d ∈ ds →
      ∀ t, batchSelectId d = some t → t ≠ 0 →
      t ∈ existing ∨ t ∈ (batchPhase1 nextId existing ds).1.map (fun m => m.tmdb_id) := by
  intro ds
  induction ds with
  | nil => intro nextId d hd; cases hd
  | cons x rest ih =>
    intro nextId d hd t hsel h0
    rcases List.mem_cons.mp hd with rfl | hd2
    · -- d is the head
      unfold batchPhase1
      rw [hsel]
      by_cases hex : t ∈ existing
      · exact Or.inl hex
      · simp only [h0, hex, if_false]
        right
        simp
    · -- d sits in the tail
      unfold batchPhase1
      cases hx : batchSelectId x with
      | none =>
        exact ih nextId d hd2 t hsel h0
      | some tx =>
        by_cases hx0 : tx = 0
        · simpa [hx0] using ih nextId d hd2 t hsel h0
        · by_cases hxex : tx ∈ existing
          · simpa [hx0, hxex] using ih nextId d hd2 t hsel h0
          · simp only [hx0, hxex, if_false]
            rcases ih (nextId + 1) d hd2 t hsel h0 with h | h
            · exact Or.inl h
            · right
              simp only [List.map_cons, List.mem_cons]
              exact Or.inr h

theorem batchPhase1_no_new (existing : List Int) :
    ∀ (ds : List MovieData) (nextId : Nat),
      (∀ d ∈ ds, ∀ t, batchSelectId d = some t → t ≠ 0 → t ∈ existing) →
      (batchPhase1 nextId existing ds).1 = [] := by
  intro ds
  induction ds with
  | nil => intro nextId _; rfl
  | cons d rest ih =>
    intro nextId h
    unfold batchPhase1
    cases hsel : batchSelectId d with
    | none =>
      simpa using ih nextId (fun x hx => h x (List.mem_cons_of_mem _ hx))
    | some tid =>
      by_cases h0 : tid = 0
      · simpa [h0] using ih nextId (fun x hx => h x (List.mem_cons_of_mem _ hx))
      · have hex : tid ∈ existing := h d (List.mem_cons_self d rest) tid hsel h0
        simpa [h0, hex] using ih nextId (fun x hx => h x (List.mem_cons_of_mem _ hx))

/-- Unfolded form of `load_movie_data_batch`, convenient for case
analysis on the commit outcome. -/
theorem load_movie_data_batch_eq (db : DB) (ds : List MovieData) :
    load_movie_data_batch db ds =
      if insertOk (db.movies.map (fun m => m.tmdb_id))
          (batchPhase1 (db.movies.length + 1) (existingIdsForBatch db ds) ds).1 then
        { db := batchGenrePass (existingIdsForBatch db ds) ds
            { db with movies := db.movies ++
                (batchPhase1 (db.movies.length + 1) (existingIdsForBatch db ds) ds).1 },
          created := (batchPhase1 (db.movies.length + 1) (existingIdsForBatch db ds) ds).1.length,
          skippedExisting := (batchPhase1 (db.movies.length + 1) (existingIdsForBatch db ds) ds).2.1,
          skippedNoId := (batchPhase1 (db.movies.length + 1) (existingIdsForBatch db ds) ds).2.2,
          err := none }
      else
        { db := db, created := 0,
          skippedExisting := (batchPhase1 (db.movies.length + 1) (existingIdsForBatch db ds) ds).2.1,
          skippedNoId := (batchPhase1 (db.movies.length + 1) (existingIdsForBatch db ds) ds).2.2,
          err := some "IntegrityError" } := rfl

/-- Characterization of a successful single-record upsert: it took either
the update branch or the create branch, with the corresponding store. -/
theorem load_ok_cases {db : DB} {d : MovieData} {db2 : DB}
    (hld : load_movie_data db d = .ok db2) :
    (∃ tid m, singleSelectId d = some tid ∧ tid ≠ 0 ∧
       db.movies.find? (fun x => x.tmdb_id == tid) = some m ∧ d.title ≠ none ∧
       db2.movies = db.movies.map (fun x => if x.id = m.id then
         { m with title := d.title, overview := d.overview } else x) ∧
       db2.changes = db.changes ++ [⟨m.id, "update"⟩]) ∨
    (∃ tid, singleSelectId d = some tid ∧ tid ≠ 0 ∧
       db.movies.find? (fun x => x.tmdb_id == tid) = none ∧ d.title ≠ none ∧
       db2.movies = db.movies ++
         [{ id := db.movies.length + 1, tmdb_id := tid,
            movielens_id := pyOrInt d.movielens_id d.movieId,
            title := d.title, overview := d.overview }] ∧
       db2.changes = db.changes ++ [⟨db.movies.length + 1, "create"⟩]) := by
  unfold load_movie_data at hld
  cases hsel : singleSelectId d with
  | none => rw [hsel] at hld; cases hld
  | some tid =>
    rw [hsel] at hld
    by_cases h0 : tid = 0
    · simp only [h0, if_true] at hld; cases hld
    · simp only [h0, if_false] at hld
      cases hfind : db.movies.find? (fun x => x.tmdb_id == tid) with
      | some m =>
        rw [hfind] at hld
        by_cases ht : d.title = none
        · simp only [ht, if_true] at hld; cases hld
        · simp only [ht, if_false, Except.ok.injEq] at hld
          left
          exact ⟨tid, m, rfl, h0, hfind, ht, by rw [← hld], by rw [← hld]⟩
      | none =>
        rw [hfind] at hld
        by_cases ht : d.title = none
        · simp only [ht, if_true] at hld; cases hld
        · simp only [ht, if_false, Except.ok.injEq] at hld
          right
          exact ⟨tid, rfl, h0, hfind, ht, by rw [← hld], by rw [← hld]⟩

/-- Well-formedness only depends on the `movies` table. -/
theorem movies_eq_wf {a b : DB} (h : a.movies = b.movies) (hb : WF b) : WF a := by
  unfold WF IdsSeq UniqueTmdb NonzeroTmdb at *
  rw [h]
  exact hb

theorem wf_load_ok {db : DB} {d : MovieData} {db2 : DB}
    (h : WF db) (hld : load_movie_data db d = .ok db2) : WF db2 := by
  obtain ⟨hids, huniq, hnz⟩ := h
  have hidnd : (db.movies.map (fun m => m.id)).Nodup := by
    rw [hids]; exact List.nodup_range' _ _
  rcases load_ok_cases hld with
    ⟨tid, m, hsel, h0, hfind, ht, hmov, -⟩ | ⟨tid, hsel, h0, hfind, ht, hmov, -⟩
  · -- update branch
    have hm : m ∈ db.movies := List.mem_of_find?_eq_some hfind
    have hmtid : m.tmdb_id = tid := by
      have := List.find?_some hfind
      simpa using this
    have hmapid : db2.movies.map (fun x => x.id) = db.movies.map (fun x => x.id) := by
      rw [hmov, List.map_map]
      apply List.map_congr_left
      intro x hx
      by_cases hxid : x.id = m.id <;> simp [Function.comp, hxid]
    have hmaptid :
        db2.movies.map (fun x => x.tmdb_id) = db.movies.map (fun x => x.tmdb_id) := by
      rw [hmov, List.map_map]
      apply List.map_congr_left
      intro x hx
      by_cases hxid : x.id = m.id
      · have hxm : x = m := List.inj_on_of_nodup_map hidnd hx hm hxid
        simp [Function.comp, hxid, hxm]
      · simp [Function.comp, hxid]
    have hlen : db2.movies.length = db.movies.length := by
      rw [hmov, List.length_map]
    refine ⟨?_, ?_, ?_⟩
    · unfold IdsSeq
      rw [hmapid, hlen]
      exact hids
    · unfold UniqueTmdb
      rw [hmaptid]
      exact huniq
    · intro y hy
      rw [hmov] at hy
      obtain ⟨x, hx, rfl⟩ := List.mem_map.mp hy
      by_cases hxid : x.id = m.id
      · simpa [hxid] using hnz m hm
      · simpa [hxid] using hnz x hx
  · -- create branch
    have hnew : tid ∉ db.movies.map (fun x => x.tmdb_id) := by
      intro hmem
      obtain ⟨x, hx, hxe⟩ := List.mem_map.mp hmem
      exact absurd (by simpa using hxe.symm ▸ rfl : (x.tmdb_id == tid) = true)
        ((List.find?_eq_none.mp hfind) x hx)
    refine ⟨?_, ?_, ?_⟩
    · unfold IdsSeq
      rw [hmov, List.map_append, hids]
      simp [List.range'_concat, Nat.add_comm]
    · unfold UniqueTmdb
      rw [hmov, List.map_append]
      rw [List.nodup_append]
      refine ⟨huniq, List.nodup_singleton _, ?_⟩
      intro a ha hb
      simp only [List.map_cons, List.map_nil, List.mem_singleton] at hb
      exact hnew (hb ▸ ha)
    · intro y hy
      rw [hmov] at hy
      rcases List.mem_append.mp hy with hy | hy
      · exact hnz y hy
      · simp only [List.mem_singleton] at hy
        rw [hy]
        exact h0

theorem wf_batch (db : DB) (ds : List MovieData) (h : WF db) :
    WF (load_movie_data_batch db ds).db := by
  obtain ⟨hids, huniq, hnz⟩ := h
  rw [load_movie_data_batch_eq]
  by_cases hins : insertOk (db.movies.map (fun m => m.tmdb_id))
      (batchPhase1 (db.movies.length + 1) (existingIdsForBatch db ds) ds).1 = true
  · simp only [hins, if_true]
    refine movies_eq_wf (batchGenrePass_movies _ _ _) ?_
    refine ⟨?_, ?_, ?_⟩
    · unfold IdsSeq
      simp only [List.map_append, List.length_append]
      rw [hids, batchPhase1_ids]
      have hr := List.range'_append 1 db.movies.length
        (batchPhase1 (db.movies.length + 1) (existingIdsForBatch db ds) ds).1.length 1
      simp only [one_mul] at hr
      rw [Nat.add_comm 1 db.movies.length] at hr
      rw [hr, Nat.add_comm]
    · unfold UniqueTmdb
      simp only [List.map_append]
      exact insertOk_nodup _ _ hins huniq
    · intro m hm
      simp only [List.mem_append] at hm
      rcases hm with hm | hm
      · exact hnz m hm
      · exact batchPhase1_nonzero _ ds _ m hm
  · simp only [hins, if_false]
    exact ⟨hids, huniq, hnz⟩

theorem wf_applyOp (db : DB) (op : Op) (h : WF db) : WF (applyOp db op) := by
  cases op with
  | single d =>
    cases hld : load_movie_data db d with
    | ok db2 =>
      have heq : applyOp db (Op.single d) = db2 := by
        show runSingle db d = db2
        unfold runSingle
        rw [hld]
      rw [heq]
      exact wf_load_ok h hld
    | error e =>
      have heq : applyOp db (Op.single d) = db := by
        show runSingle db d = db
        unfold runSingle
        rw [hld]
      rw [heq]
      exact h
  | batch ds => exact wf_batch db ds h

theorem wf_applyOps (ops : List Op) :
    ∀ db : DB, WF db → WF (applyOps db ops) := by
  induction ops with
  | nil => intro db h; exact h
  | cons op rest ih =>
    intro db h
    unfold applyOps at *
    simp only [List.foldl_cons]
    exact ih (applyOp db op) (wf_applyOp db op h)

/-- The batch loader never writes to the change log: its result carries
the `changes` list of the input store unchanged. -/
theorem batch_preserves_changes (db : DB) (ds : List MovieData) :
    (load_movie_data_batch db ds).db.changes = db.changes := by
  rw [load_movie_data_batch_eq]
  by_cases hins : insertOk (db.movies.map (fun m => m.tmdb_id))
      (batchPhase1 (db.movies.length + 1) (existingIdsForBatch db ds) ds).1 = true
  · simp only [hins, if_true]
    rw [batchGenrePass_changes]
  · simp [hins]

/-- Membership in the bulk existence lookup: a stored row with that
`tmdb_id` exists and some record of the batch selects that id. -/
theorem mem_existingIds {db : DB} {ds : List MovieData} {t : Int} :
    t ∈ existingIdsForBatch db ds ↔
      (∃ m ∈ db.movies, m.tmdb_id = t) ∧ some t ∈ ds.map batchSelectId := by
  unfold existingIdsForBatch
  simp only [List.mem_map, List.mem_filter, decide_eq_true_eq]
  constructor
  · rintro ⟨m, ⟨hm, hmem⟩, rfl⟩
    exact ⟨⟨m, hm, rfl⟩, hmem⟩
  · rintro ⟨⟨m, hm, rfl⟩, hmem⟩
    exact ⟨m, ⟨hm, hmem⟩, rfl⟩

/-- The batch loader preserves the all-ids-truthy invariant on its own
(no uniqueness assumption needed). -/
theorem nonzero_batch (db : DB) (ds : List MovieData) (hnz : NonzeroTmdb db) :
    NonzeroTmdb (load_movie_data_batch db ds).db := by
  rw [load_movie_data_batch_eq]
  by_cases hins : insertOk (db.movies.map (fun m => m.tmdb_id))
      (batchPhase1 (db.movies.length + 1) (existingIdsForBatch db ds) ds).1 = true
  · simp only [hins, if_true]
    intro m hm
    rw [batchGenrePass_movies] at hm
    simp only [List.mem_append] at hm
    rcases hm with hm | hm
    · exact hnz m hm
    · exact batchPhase1_nonzero _ ds _ m hm
  · simp only [hins, if_false]
    simp only [Bool.false_eq_true, if_false]
    exact hnz

/-- A record whose selected TMDB id is not truthy makes the single-record
upsert raise `ValueError("TMDB ID is required")`. -/
theorem single_no_id_error (db : DB) (d : MovieData)
    (h : truthyInt (singleSelectId d) = false) :
    load_movie_data db d = .error "TMDB ID is required" := by
  unfold load_movie_data
  cases hsel : singleSelectId d with
  | none => rfl
  | some v =>
    have hv : v = 0 := by
      rw [hsel] at h
      unfold truthyInt at h
      simpa using h
    simp [hv]

/-- When neither id field is truthy, neither selector is truthy. -/
theorem select_not_truthy {d : MovieData}
    (h1 : truthyInt d.tmdbId = false) (h2 : truthyInt d.tmdb_id = false) :
    truthyInt (singleSelectId d) = false ∧ truthyInt (batchSelectId d) = false := by
  unfold singleSelectId batchSelectId pyOrInt
  rw [h1, h2]
  simp [h1, h2]

/-- C3: starting from a well-formed store, after any sequence of
single-record and batch upsert operations, no two movie rows share the
same external TMDB id, and the TMDB id of every row is truthy — in particular
non-null (structurally, `tmdb_id` is total) and non-zero. -/
theorem tmdb_id_unique_invariant (db : DB) (ops : List Op) (h : WF db) :
    UniqueTmdb (applyOps db ops) ∧ NonzeroTmdb (applyOps db ops) :=
  ⟨(wf_applyOps ops db h).2.1, (wf_applyOps ops db h).2.2⟩

/-- Witness for `tmdb_id_unique_invariant`: a batch create, a duplicate
batch (rolled back), and a single-record update, from the empty store. -/
theorem tmdb_id_unique_invariant_witness :
    UniqueTmdb (applyOps emptyDB
      [Op.batch [{ tmdb_id := some 3, title := some "A" },
                 { tmdb_id := some 4, title := some "B" }],
       Op.batch [{ tmdb_id := some 4, title := some "B2" },
                 { tmdb_id := some 4, title := some "B3" }],
       Op.single { tmdbId := some 3, title := some "C" }]) ∧
    NonzeroTmdb (applyOps emptyDB
      [Op.batch [{ tmdb_id := some 3, title := some "A" },
                 { tmdb_id := some 4, title := some "B" }],
       Op.batch [{ tmdb_id := some 4, title := some "B2" },
                 { tmdb_id := some 4, title := some "B3" }],
       Op.single { tmdbId := some 3, title := some "C" }]) :=
  tmdb_id_unique_invariant emptyDB
    [Op.batch [{ tmdb_id := some 3, title := some "A" },
               { tmdb_id := some 4, title := some "B" }],
     Op.batch [{ tmdb_id := some 4, title := some "B2" },
               { tmdb_id := some 4, title := some "B3" }],
     Op.single { tmdbId := some 3, title := some "C" }] (by decide)

/-- C4 (amended): the single-record upsert appends exactly one
ChangeRecord per create or update, with the change kind naming the branch
taken and the movie reference pointing at a stored row; the BATCH upsert
appends no ChangeRecord at all, even when it creates rows — it never
calls `_track_change`. -/
theorem change_record_per_operation :
    (∀ (db : DB) (d : MovieData) (db2 : DB), load_movie_data db d = .ok db2 →
      ∃ c, db2.changes = db.changes ++ [c] ∧
        (c.change_type = "create" ∨ c.change_type = "update") ∧
        c.movie_id ∈ db2.movies.map (fun m => m.id)) ∧
    (∀ (db : DB) (ds : List MovieData),
      (load_movie_data_batch db ds).db.changes = db.changes) := by
  constructor
  · intro db d db2 hld
    rcases load_ok_cases hld with
      ⟨tid, m, hsel, h0, hfind, ht, hmov, hch⟩ | ⟨tid, hsel, h0, hfind, ht, hmov, hch⟩
    · refine ⟨⟨m.id, "update"⟩, hch, Or.inr rfl, ?_⟩
      have hm : m ∈ db.movies := List.mem_of_find?_eq_some hfind
      rw [hmov]
      refine List.mem_map.mpr
        ⟨if m.id = m.id then { m with title := d.title, overview := d.overview } else m,
         List.mem_map_of_mem _ hm, by simp⟩
    · refine ⟨⟨db.movies.length + 1, "create"⟩, hch, Or.inl rfl, ?_⟩
      rw [hmov, List.map_append]
      simp
  · exact batch_preserves_changes

/-- Witness for `change_record_per_operation` at a concrete create. -/
theorem change_record_per_operation_witness :
    ∃ c, ({ movies := [{ id := 1, tmdb_id := 7, movielens_id := none,
                         title := some "W", overview := none }],
            changes := [{ movie_id := 1, change_type := "create" }] } : DB).changes
        = emptyDB.changes ++ [c] ∧
      (c.change_type = "create" ∨ c.change_type = "update") ∧
      c.movie_id ∈ ({ movies := [{ id := 1, tmdb_id := 7, movielens_id := none,
                                   title := some "W", overview := none }],
                      changes := [{ movie_id := 1, change_type := "create" }] } : DB).movies.map
        (fun m => m.id) :=
  change_record_per_operation.1 emptyDB { tmdbId := some 7, title := some "W" }
    { movies := [{ id := 1, tmdb_id := 7, movielens_id := none,
                   title := some "W", overview := none }],
      changes := [{ movie_id := 1, change_type := "create" }] } (by rfl)

/-- Removing a record with a non-truthy id from a batch does not change
the bulk existence lookup (stored ids are truthy, so the extra `None` or
`0` entry of `tmdb_ids` matches no row). -/
theorem existingIds_removal (db : DB) (d : MovieData) (hnz : NonzeroTmdb db)
    (hd : truthyInt (batchSelectId d) = false) (pre post : List MovieData) :
    existingIdsForBatch db (pre ++ d :: post) = existingIdsForBatch db (pre ++ post) := by
  unfold existingIdsForBatch
  dsimp only
  congr 1
  apply List.filter_congr
  intro m hm
  rw [decide_eq_decide]
  have hne : some m.tmdb_id ≠ batchSelectId d := by
    cases hsel : batchSelectId d with
    | none => simp
    | some v =>
      have hv : v = 0 := by
        rw [hsel] at hd
        unfold truthyInt at hd
        simpa using hd
      have hmz := hnz m hm
      rw [hv]
      intro hcontra
      exact hmz (Option.some.inj hcontra)
  simp only [List.map_append, List.map_cons, List.mem_append, List.mem_cons]
  constructor
  · rintro (h | h | h)
    · exact Or.inl h
    · exact absurd h hne
    · exact Or.inr h
  · rintro (h | h)
    · exact Or.inl h
    · exact Or.inr (Or.inr h)

/-- Removing a record with a non-truthy id from the main loop leaves
`movies_to_add` and the skipped-existing tally unchanged and decrements
the skipped-no-id tally. -/
theorem batchPhase1_removal (existing : List Int) (d : MovieData)
    (hd : truthyInt (batchSelectId d) = false) :
    ∀ (pre post : List MovieData) (nextId : Nat),
      (batchPhase1 nextId existing (pre ++ d :: post)).1
        = (batchPhase1 nextId existing (pre ++ post)).1 ∧
      (batchPhase1 nextId existing (pre ++ d :: post)).2.1
        = (batchPhase1 nextId existing (pre ++ post)).2.1 ∧
      (batchPhase1 nextId existing (pre ++ d :: post)).2.2
        = (batchPhase1 nextId existing (pre ++ post)).2.2 + 1 := by
  intro pre
  induction pre with
  | nil =>
    intro post nextId
    simp only [List.nil_append]
    cases hsel : batchSelectId d with
    | none =>
      rw [batchPhase1_cons_none nextId existing d post hsel]
      exact ⟨rfl, rfl, rfl⟩
    | some v =>
      have hv : v = 0 := by
        rw [hsel] at hd
        unfold truthyInt at hd
        simpa using hd
      rw [batchPhase1_cons_zero nextId existing d post (hv ▸ hsel)]
      exact ⟨rfl, rfl, rfl⟩
  | cons x pre ih =>
    intro post nextId
    obtain ⟨i1, i2, i3⟩ := ih post nextId
    obtain ⟨j1, j2, j3⟩ := ih post (nextId + 1)
    simp only [List.cons_append]
    cases hx : batchSelectId x with
    | none =>
      rw [batchPhase1_cons_none nextId existing x _ hx,
          batchPhase1_cons_none nextId existing x _ hx]
      exact ⟨i1, i2, by dsimp only; rw [i3]⟩
    | some tx =>
      by_cases hx0 : tx = 0
      · rw [batchPhase1_cons_zero nextId existing x _ (hx0 ▸ hx),
            batchPhase1_cons_zero nextId existing x _ (hx0 ▸ hx)]
        exact ⟨i1, i2, by dsimp only; rw [i3]⟩
      · by_cases hxex : tx ∈ existing
        · rw [batchPhase1_cons_existing nextId existing x _ hx hx0 hxex,
              batchPhase1_cons_existing nextId existing x _ hx hx0 hxex]
          exact ⟨i1, by dsimp only; rw [i2], i3⟩
        · rw [batchPhase1_cons_new nextId existing x _ hx hx0 hxex,
              batchPhase1_cons_new nextId existing x _ hx hx0 hxex]
          exact ⟨by dsimp only; rw [j1], j2, by dsimp only; rw [j3]⟩

/-- Removing a record with a non-truthy id from the genre pass changes
nothing: its step is skipped by the `continue` guard. -/
theorem batchGenrePass_removal (existing : List Int) (d : MovieData)
    (hd : truthyInt (batchSelectId d) = false) (pre post : List MovieData) (db : DB) :
    batchGenrePass existing (pre ++ d :: post) db
      = batchGenrePass existing (pre ++ post) db := by
  unfold batchGenrePass
  rw [List.foldl_append, List.foldl_append, List.foldl_cons,
      batchGenreStep_skip existing _ d hd]

/-- A record with a non-truthy id is transparent to the whole batch
loader, except for one extra skipped-no-id log line. -/
theorem batch_removal (db : DB) (d : MovieData) (pre post : List MovieData)
    (hnz : NonzeroTmdb db) (hd : truthyInt (batchSelectId d) = false) :
    (load_movie_data_batch db (pre ++ d :: post)).db
      = (load_movie_data_batch db (pre ++ post)).db ∧
    (load_movie_data_batch db (pre ++ d :: post)).created
      = (load_movie_data_batch db (pre ++ post)).created ∧
    (load_movie_data_batch db (pre ++ d :: post)).skippedExisting
      = (load_movie_data_batch db (pre ++ post)).skippedExisting ∧
    (load_movie_data_batch db (pre ++ d :: post)).skippedNoId
      = (load_movie_data_batch db (pre ++ post)).skippedNoId + 1 ∧
    (load_movie_data_batch db (pre ++ d :: post)).err
      = (load_movie_data_batch db (pre ++ post)).err := by
  have hex := existingIds_removal db d hnz hd pre post
  obtain ⟨p1, p2, p3⟩ :=
    batchPhase1_removal (existingIdsForBatch db (pre ++ post)) d hd pre post
      (db.movies.length + 1)
  rw [load_movie_data_batch_eq, load_movie_data_batch_eq, hex, p1, p2, p3]
  by_cases hins : insertOk (db.movies.map (fun m => m.tmdb_id))
      (batchPhase1 (db.movies.length + 1) (existingIdsForBatch db (pre ++ post))
        (pre ++ post)).1 = true
  · simp only [hins, if_true]
    repeat' apply And.intro
    all_goals first
      | trivial
      | exact batchGenrePass_removal _ d hd pre post _
  · simp only [hins, Bool.false_eq_true, if_false, reduceIte]
    repeat' apply And.intro
    all_goals trivial

/-- C6 (amended): a candidate with no truthy external id field is
excluded from both creates and updates by the BATCH upsert, which logs
the rejection, tallies it, and still processes every other candidate
identically; the SINGLE-RECORD upsert, however, does not log-and-continue
— it raises `ValueError("TMDB ID is required")`. -/
theorem no_id_candidate_handling (db : DB) (d : MovieData) (pre post : List MovieData)
    (hnz : NonzeroTmdb db)
    (h1 : truthyInt d.tmdbId = false) (h2 : truthyInt d.tmdb_id = false) :
    load_movie_data db d = .error "TMDB ID is required" ∧
    (load_movie_data_batch db (pre ++ d :: post)).db
      = (load_movie_data_batch db (pre ++ post)).db ∧
    (load_movie_data_batch db (pre ++ d :: post)).created
      = (load_movie_data_batch db (pre ++ post)).created ∧
    (load_movie_data_batch db (pre ++ d :: post)).skippedNoId
      = (load_movie_data_batch db (pre ++ post)).skippedNoId + 1 ∧
    (load_movie_data_batch db (pre ++ d :: post)).err
      = (load_movie_data_batch db (pre ++ post)).err := by
  obtain ⟨hs, hb⟩ := select_not_truthy h1 h2
  obtain ⟨r1, r2, -, r4, r5⟩ := batch_removal db d pre post hnz hb
  exact ⟨single_no_id_error db d hs, r1, r2, r4, r5⟩

/-- Witness for `no_id_candidate_handling`: an id-less candidate between
two well-formed candidates in a concrete batch against the empty store. -/
theorem no_id_candidate_handling_witness :
    load_movie_data emptyDB { title := some "NoId" } = .error "TMDB ID is required" ∧
    (load_movie_data_batch emptyDB
        [{ tmdb_id := some 1, title := some "A" }, { title := some "NoId" },
         { tmdb_id := some 2, title := some "B" }]).db
      = (load_movie_data_batch emptyDB
          [{ tmdb_id := some 1, title := some "A" },
           { tmdb_id := some 2, title := some "B" }]).db ∧
    (load_movie_data_batch emptyDB
        [{ tmdb_id := some 1, title := some "A" }, { title := some "NoId" },
         { tmdb_id := some 2, title := some "B" }]).created
      = (load_movie_data_batch emptyDB
          [{ tmdb_id := some 1, title := some "A" },
           { tmdb_id := some 2, title := some "B" }]).created ∧
    (load_movie_data_batch emptyDB
        [{ tmdb_id := some 1, title := some "A" }, { title := some "NoId" },
         { tmdb_id := some 2, title := some "B" }]).skippedNoId
      = (load_movie_data_batch emptyDB
          [{ tmdb_id := some 1, title := some "A" },
           { tmdb_id := some 2, title := some "B" }]).skippedNoId + 1 ∧
    (load_movie_data_batch emptyDB
        [{ tmdb_id := some 1, title := some "A" }, { title := some "NoId" },
         { tmdb_id := some 2, title := some "B" }]).err
      = (load_movie_data_batch emptyDB
          [{ tmdb_id := some 1, title := some "A" },
           { tmdb_id := some 2, title := some "B" }]).err :=
  no_id_candidate_handling emptyDB { title := some "NoId" }
    [{ tmdb_id := some 1, title := some "A" }]
    [{ tmdb_id := some 2, title := some "B" }] (by decide) (by decide) (by decide)

/-- C10: a record whose external-id fields are present but falsy (in
particular the integer 0) is treated exactly as if the id were absent:
the single-record upsert raises `ValueError("TMDB ID is required")`, the
batch upsert behaves as if the record were not in the batch (plus one
skip log), and no row with a falsy TMDB id is ever present afterwards. -/
theorem falsy_id_treated_as_absent (db : DB) (d : MovieData) (pre post : List MovieData)
    (hnz : NonzeroTmdb db)
    (hp : d.tmdbId = some 0 ∨ d.tmdb_id = some 0)
    (h1 : truthyInt d.tmdbId = false) (h2 : truthyInt d.tmdb_id = false) :
    load_movie_data db d = .error "TMDB ID is required" ∧
    (load_movie_data_batch db (pre ++ d :: post)).db
      = (load_movie_data_batch db (pre ++ post)).db ∧
    (load_movie_data_batch db (pre ++ d :: post)).skippedNoId
      = (load_movie_data_batch db (pre ++ post)).skippedNoId + 1 ∧
    (∀ m ∈ (load_movie_data_batch db (pre ++ d :: post)).db.movies, m.tmdb_id ≠ 0) := by
  obtain ⟨hs, hb⟩ := select_not_truthy h1 h2
  obtain ⟨r1, -, -, r4, -⟩ := batch_removal db d pre post hnz hb
  exact ⟨single_no_id_error db d hs, r1, r4,
    nonzero_batch db (pre ++ d :: post) hnz⟩

/-- Witness for `falsy_id_treated_as_absent`: a record with the literal
id 0 in both fields, inside a concrete batch against the empty store. -/
theorem falsy_id_treated_as_absent_witness :
    load_movie_data emptyDB { tmdbId := some 0, tmdb_id := some 0, title := some "Z" }
      = .error "TMDB ID is required" ∧
    (load_movie_data_batch emptyDB
        [{ tmdb_id := some 9, title := some "A" },
         { tmdbId := some 0, tmdb_id := some 0, title := some "Z" }]).db
      = (load_movie_data_batch emptyDB
          [{ tmdb_id := some 9, title := some "A" }]).db ∧
    (load_movie_data_batch emptyDB
        [{ tmdb_id := some 9, title := some "A" },
         { tmdbId := some 0, tmdb_id := some 0, title := some "Z" }]).skippedNoId
      = (load_movie_data_batch emptyDB
          [{ tmdb_id := some 9, title := some "A" }]).skippedNoId + 1 ∧
    (∀ m ∈ (load_movie_data_batch emptyDB
        [{ tmdb_id := some 9, title := some "A" },
         { tmdbId := some 0, tmdb_id := some 0, title := some "Z" }]).db.movies,
      m.tmdb_id ≠ 0) := by
  have h := falsy_id_treated_as_absent emptyDB
    { tmdbId := some 0, tmdb_id := some 0, title := some "Z" }
    [{ tmdb_id := some 9, title := some "A" }] []
    (by decide) (Or.inl rfl) (by decide) (by decide)
  simpa using h

/-- C1 (amended): running the batch upsert twice with the same input
batch yields no duplicate rows — uniqueness of `tmdb_id` is preserved —
and the second run creates nothing; but the second run does not UPDATE
the existing records either: every record whose external id already
exists is skipped by the already-exists guard, so the second run returns
the store bit-for-bit unchanged, appends no ChangeRecord (so its updated
count is 0, not the created count of the first run), and reports no error. -/
theorem second_run_skips_not_updates (db : DB) (B : List MovieData) (hwf : WF db)
    (h1 : (load_movie_data_batch db B).err = none) :
    UniqueTmdb (load_movie_data_batch db B).db ∧
    (load_movie_data_batch (load_movie_data_batch db B).db B).db
      = (load_movie_data_batch db B).db ∧
    (load_movie_data_batch (load_movie_data_batch db B).db B).created = 0 ∧
    (load_movie_data_batch (load_movie_data_batch db B).db B).err = none ∧
    (load_movie_data_batch (load_movie_data_batch db B).db B).db.changes = db.changes := by
  have hwf1 := wf_batch db B hwf
  have hins : insertOk (db.movies.map (fun m => m.tmdb_id))
      (batchPhase1 (db.movies.length + 1) (existingIdsForBatch db B) B).1 = true := by
    by_contra hc
    rw [load_movie_data_batch_eq] at h1
    simp [hc] at h1
  have hr1movies : (load_movie_data_batch db B).db.movies
      = db.movies ++ (batchPhase1 (db.movies.length + 1) (existingIdsForBatch db B) B).1 := by
    rw [load_movie_data_batch_eq]
    simp only [hins, if_true]
    rw [batchGenrePass_movies]
  have hcov : ∀ x ∈ B, ∀ t, batchSelectId x = some t → t ≠ 0 →
      t ∈ existingIdsForBatch (load_movie_data_batch db B).db B := by
    intro x hx t hsel ht0
    apply mem_existingIds.mpr
    constructor
    · rcases batchPhase1_coverage (existingIdsForBatch db B) B (db.movies.length + 1)
        x hx t hsel ht0 with h | h
      · obtain ⟨⟨m, hm, hmt⟩, -⟩ := mem_existingIds.mp h
        exact ⟨m, by rw [hr1movies]; exact List.mem_append.mpr (Or.inl hm), hmt⟩
      · obtain ⟨m, hm, hmt⟩ := List.mem_map.mp h
        exact ⟨m, by rw [hr1movies]; exact List.mem_append.mpr (Or.inr hm), hmt⟩
    · exact List.mem_map.mpr ⟨x, hx, hsel⟩
  have hno := batchPhase1_no_new
    (existingIdsForBatch (load_movie_data_batch db B).db B) B
    ((load_movie_data_batch db B).db.movies.length + 1) hcov
  have hpass := batchGenrePass_no_new
    (existingIdsForBatch (load_movie_data_batch db B).db B) B hcov
  refine ⟨hwf1.2.1, ?_, ?_, ?_, ?_⟩
  · rw [load_movie_data_batch_eq, hno]
    simp only [insertOk, if_true]
    rw [hpass]
    simp
  · rw [load_movie_data_batch_eq, hno]
    simp [insertOk]
  · rw [load_movie_data_batch_eq, hno]
    simp [insertOk]
  · rw [batch_preserves_changes, batch_preserves_changes]

/-- Witness for `second_run_skips_not_updates` on a concrete one-record
batch against the empty store. -/
theorem second_run_skips_not_updates_witness :
    UniqueTmdb (load_movie_data_batch emptyDB
      [{ tmdb_id := some 1, title := some "T" }]).db ∧
    (load_movie_data_batch
        (load_movie_data_batch emptyDB [{ tmdb_id := some 1, title := some "T" }]).db
        [{ tmdb_id := some 1, title := some "T" }]).db
      = (load_movie_data_batch emptyDB [{ tmdb_id := some 1, title := some "T" }]).db ∧
    (load_movie_data_batch
        (load_movie_data_batch emptyDB [{ tmdb_id := some 1, title := some "T" }]).db
        [{ tmdb_id := some 1, title := some "T" }]).created = 0 ∧
    (load_movie_data_batch
        (load_movie_data_batch emptyDB [{ tmdb_id := some 1, title := some "T" }]).db
        [{ tmdb_id := some 1, title := some "T" }]).err = none ∧
    (load_movie_data_batch
        (load_movie_data_batch emptyDB [{ tmdb_id := some 1, title := some "T" }]).db
        [{ tmdb_id := some 1, title := some "T" }]).db.changes = emptyDB.changes :=
  second_run_skips_not_updates emptyDB [{ tmdb_id := some 1, title := some "T" }]
    (by decide) (by decide)

/-- C1 counterexample: with the one-record batch `B = [{tmdb_id: 1,
title: "T"}]`, the first run creates 1 row; running the same batch again
does not update the record — it takes the logged already-exists skip
branch, leaving rows and the change log bit-for-bit unchanged — so the
second run performs 0 updates (no field write, no update ChangeRecord),
not a number of updates equal to the created count 1 of the first run. -/
theorem second_run_skips_counterexample :
    (load_movie_data_batch emptyDB [{ tmdb_id := some 1, title := some "T" }]).created = 1 ∧
    (load_movie_data_batch
        (load_movie_data_batch emptyDB [{ tmdb_id := some 1, title := some "T" }]).db
        [{ tmdb_id := some 1, title := some "T" }]).skippedExisting = 1 ∧
    (load_movie_data_batch
        (load_movie_data_batch emptyDB [{ tmdb_id := some 1, title := some "T" }]).db
        [{ tmdb_id := some 1, title := some "T" }]).db
      = (load_movie_data_batch emptyDB [{ tmdb_id := some 1, title := some "T" }]).db ∧
    ((load_movie_data_batch
        (load_movie_data_batch emptyDB [{ tmdb_id := some 1, title := some "T" }]).db
        [{ tmdb_id := some 1, title := some "T" }]).db.changes.filter
        (fun c => c.change_type = "update")).length = 0 := by
  refine ⟨by decide, by decide, by decide, by decide⟩

end BackEnd
